import Mathlib

/-
Shallow embedding of the client-side combobox controller in
src/assets/queue.js (review-queue repository).

The script's mutable globals (current_option, available_options,
old_username) and the DOM locations it reads and writes (the
change-username input's value, the suggestions popup's visibility and
children, the main content region, the refresh-time label, the focused
element) are gathered into one record, PageState.  Each JS function
becomes a Lean function PageState -> ... -> PageState; outbound
socket.send calls are recorded in the `sent` list, in send order.
-/

set_option autoImplicit false

namespace ReviewQueue

/-- Which element currently holds keyboard focus (document.activeElement):
the change-username input itself, some other editable field on the page,
or anything else (body, links, ...). -/
inductive Focus
  | usernameInput
  | otherEditable
  | other
  deriving DecidableEq, Repr

/-- Outbound messages built by the script and handed to socket.send, one
constructor per `key` value (queue.js lines 59-64, 174-179, 198). -/
inductive OutMsg
  | usernameSelect (selected_name : String)
  | usernameSuggestions (current_value : String)
  | resetUsername
  deriving DecidableEq, Repr

/-- One entry of an inbound `UsernameSuggestions` payload:
`{ name, avatar_url }`. -/
structure Suggestion where
  name : String
  avatar_url : String
  deriving DecidableEq, Repr

/-- One `li` option element as built by apply_username_suggestions:
the suggestion data rendered into it (the click listener captures
`name`) and its aria-selected flag. -/
structure OptionElem where
  name : String
  avatar_url : String
  ariaSelected : Bool
  deriving DecidableEq, Repr

/-- The page state the script can observe and mutate. -/
structure PageState where
  /-- global `current_option`: highlighted index or null. -/
  current_option : Option Int
  /-- global `available_options`: the JS array of option elements. -/
  available_options : List OptionElem
  /-- global `old_username`: snapshot of the input value at the start of
  an edit session, or null. -/
  old_username : Option String
  /-- value of the change-username-input element. -/
  inputValue : String
  /-- whether the suggestions-popup is shown (style.display == "flex"). -/
  popupOpen : Bool
  /-- the children of the suggestions-popup element (its innerHTML).
  These DOM nodes are shared with `available_options`, so their live
  ariaSelected state is the one recorded in `available_options`; this
  field tracks only which options are rendered. -/
  popupChildren : List OptionElem
  /-- contents of the `main` element. -/
  mainContents : String
  /-- text of the `refresh-time` element. -/
  refreshText : String
  /-- document.activeElement. -/
  focused : Focus
  /-- whether the input's text is selected (input_elem.select()). -/
  inputSelected : Bool
  /-- outbound messages passed to socket.send, oldest first. -/
  sent : List OutMsg
  deriving DecidableEq, Repr

/-- The page as first loaded: popup hidden and empty, no options, no
highlight, no snapshot, nothing sent.  The input's initial value `v`
comes from the server-rendered HTML, which is not part of the script. -/
def initState (v : String) : PageState :=
  { current_option := none
    available_options := []
    old_username := none
    inputValue := v
    popupOpen := false
    popupChildren := []
    mainContents := ""
    refreshText := ""
    focused := Focus.other
    inputSelected := false
    sent := [] }

/-- update_last_refreshed (lines 30-34): stamps the refresh-time label.
The wall-clock string `now` is read from the environment (new Date()). -/
def update_last_refreshed (s : PageState) (now : String) : PageState :=
  { s with refreshText := "last refresh: " ++ now }

/-- close_popup (lines 123-135): when `reset` is set and a snapshot
exists, write the snapshot back into the input; then clear the snapshot,
hide the popup and empty its children.  Note that `available_options`
and `current_option` are NOT touched. -/
def close_popup (s : PageState) (reset : Bool) : PageState :=
  let s1 :=
    if reset then
      match s.old_username with
      | some old => { s with inputValue := old }
      | none => s
    else s
  { s1 with old_username := none, popupOpen := false, popupChildren := [] }

/-- set_username (lines 36-45), the `SetUsername` inbound handler:
close the popup without restore, clear the main region, show the
fetching placeholder and overwrite the input's value. -/
def set_username (s : PageState) (name : String) : PageState :=
  let s1 := close_popup s false
  { s1 with
    mainContents := ""
    refreshText := "getting PR data for user " ++ name
    inputValue := name }

/-- select_username (lines 47-65): the shared commit action.  If the
name strictly equals the `old_username` snapshot, return with no effect
at all; otherwise clear the main region, show the fetching placeholder,
close the popup without restore and send one UsernameSelect message. -/
def select_username (s : PageState) (name : String) : PageState :=
  if some name = s.old_username then s
  else
    let s1 := { s with
      mainContents := ""
      refreshText := "getting PR data for user " ++ name }
    let s2 := close_popup s1 false
    { s2 with sent := s2.sent ++ [OutMsg.usernameSelect name] }

/-- Set ariaSelected on the element at index `i`, leaving the rest
alone (available_options[current_option].ariaSelected = "true"). -/
def markSelected : List OptionElem → Nat → List OptionElem
  | [], _ => []
  | o :: rest, 0 => { o with ariaSelected := true } :: rest
  | o :: rest, Nat.succ n => o :: markSelected rest n

/-- The one-step wrap-around normalisation in changeSelection
(lines 78-82): subtract the length once if the index ran past the end,
add it once if the index ran below zero. -/
def wrapIndex (c : Int) (n : Int) : Int :=
  if c ≥ n then c - n else if c < 0 then c + n else c

/-- Write ariaSelected on the element at index `c` when the index is in
range.  A normalised index still out of range would make the source
throw on `available_options[current_option].ariaSelected`; that point
is modelled as leaving the list unchanged and is unreachable from
states satisfying the highlight invariant proved below. -/
def markSelectedIfValid (l : List OptionElem) (c : Int) : List OptionElem :=
  if 0 ≤ c then markSelected l c.toNat else l

/-- changeSelection (lines 67-85): no-op when there are no options;
otherwise clear every option's ariaSelected, run the index update `f`
(the closures of selectNext/selectPrev, which always produce a number),
normalise it one step, and mark the resulting index selected.  The
aria-clearing map does not change the list's length, so the source's
`available_options.length` reads are written against the original
list. -/
def changeSelection (s : PageState) (f : Option Int → Int) : PageState :=
  if s.available_options.length = 0 then s
  else
    { s with
      available_options :=
        markSelectedIfValid
          (s.available_options.map (fun o => { o with ariaSelected := false }))
          (wrapIndex (f s.current_option) (s.available_options.length : Int))
      current_option :=
        some (wrapIndex (f s.current_option) (s.available_options.length : Int)) }

/-- selectNext (lines 87-95): from null go to 0, else step forward. -/
def selectNext (s : PageState) : PageState :=
  changeSelection s (fun c =>
    match c with
    | none => 0
    | some i => i + 1)

/-- selectPrev (lines 97-105): from null go to length-1, else step back. -/
def selectPrev (s : PageState) : PageState :=
  changeSelection s (fun c =>
    match c with
    | none => (s.available_options.length : Int) - 1
    | some i => i - 1)

/-- Array indexing as the source uses it: a negative or out-of-range
index yields undefined (none). -/
def jsIndex (l : List OptionElem) (i : Int) : Option OptionElem :=
  if i < 0 then none else l.get? i.toNat

/-- input_elem.blur() (line 110): keyboard focus leaves the input. -/
def blur_input (s : PageState) : PageState :=
  { s with focused := if s.focused = Focus.usernameInput then Focus.other else s.focused }

/-- confirmSelect (lines 107-121): blur the input, then either
force-commit the raw input text (enter_pressed), close without restore
(no highlight), or fire the highlighted option's click listener, which
runs select_username on that option's captured name.  An out-of-range
highlight would make the source throw on `.click()` of undefined; that
point is modelled as a no-op and is unreachable from states satisfying
the highlight invariant. -/
def confirmSelect (s : PageState) (enter_pressed : Bool) : PageState :=
  if enter_pressed then
    select_username (blur_input s) (blur_input s).inputValue
  else
    match (blur_input s).current_option with
    | none => close_popup (blur_input s) false
    | some i =>
      match jsIndex (blur_input s).available_options i with
      | some elem => select_username (blur_input s) elem.name
      | none => blur_input s

/-- Build the option element for one suggestion (lines 150-166):
role option, ariaSelected "false", avatar image and name span, and a
click listener capturing the suggestion's name. -/
def mkOptionElem (sug : Suggestion) : OptionElem :=
  { name := sug.name, avatar_url := sug.avatar_url, ariaSelected := false }

/-- apply_username_suggestions (lines 137-171) on an already-decoded
suggestion list: an empty list is a complete no-op; otherwise reset the
highlight to null, rebuild available_options from the suggestions,
show the popup and fill it with the same freshly built elements. -/
def apply_username_suggestions (s : PageState) (suggestions : List Suggestion) : PageState :=
  if suggestions.length = 0 then s
  else
    let opts := suggestions.map mkOptionElem
    { s with
      current_option := none
      available_options := opts
      popupOpen := true
      popupChildren := opts }

/-- ask_suggestions (lines 173-180): send one UsernameSuggestions query
carrying the input's current value (event.target is the input). -/
def ask_suggestions (s : PageState) : PageState :=
  { s with sent := s.sent ++ [OutMsg.usernameSuggestions s.inputValue] }

/-- The shared prelude of the input's click and keydown listeners
(lines 202-206 and 212-216): when no snapshot is pending, capture the
input's current value as `old_username`. -/
def capture_old_username (s : PageState) : PageState :=
  match s.old_username with
  | none => { s with old_username := some s.inputValue }
  | some _ => s

/-- The input element's keydown listener (lines 211-243): capture the
snapshot if none is pending, then dispatch on event.key.  Note the
source matches the string "Esc", not the standard "Escape". -/
def input_keydown (s : PageState) (key : String) (shiftKey : Bool) : PageState :=
  match key with
  | "ArrowDown" => selectNext (capture_old_username s)
  | "ArrowUp" => selectPrev (capture_old_username s)
  | "Tab" =>
    if shiftKey then selectPrev (capture_old_username s)
    else selectNext (capture_old_username s)
  | "Enter" => confirmSelect (capture_old_username s) true
  | "Esc" => close_popup (capture_old_username s) true
  | _ => capture_old_username s

/-- The input element's click listener (lines 201-209): capture the
snapshot if none is pending, then query suggestions. -/
def input_click (s : PageState) : PageState :=
  ask_suggestions (capture_old_username s)

/-- A text edit: the browser updates the field's value, then the input
listener (lines 281-283) queries suggestions for the new value. -/
def input_edit (s : PageState) (newValue : String) : PageState :=
  ask_suggestions { s with inputValue := newValue }

/-- The reset button's click listener (lines 191-199): close the popup
without restore, clear the main region, show the generic placeholder
and send one ResetUsername message. -/
def reset_click (s : PageState) : PageState :=
  let s1 := close_popup s false
  { s1 with
    mainContents := ""
    refreshText := "getting your PR data"
    sent := s1.sent ++ [OutMsg.resetUsername] }

/-- The document keydown listener (lines 245-257): on "/", when the
input is not the active element, focus it and select its text.  The
source checks only `input_elem !== document.activeElement`; there is no
test of where the event originated. -/
def document_keydown (s : PageState) (key : String) : PageState :=
  match key with
  | "/" =>
    if s.focused ≠ Focus.usernameInput then
      { s with focused := Focus.usernameInput, inputSelected := true }
    else s
  | _ => s

/-- The document click listener (lines 259-279) in the case where the
bounded ancestor walk found neither the change-username container nor a
username-suggestion element: close the popup with restore. -/
def document_click_outside (s : PageState) : PageState :=
  close_popup s true

/-! ## The socket message listener over raw JSON

The listener (lines 7-28) runs JSON.parse on the frame text and
switches on data["key"].  There is no try/catch around the body (only
a bare block), so a thrown exception escapes the listener.  Exceptions
are modelled with Except; a frame whose text JSON.parse rejects is
represented as `none`. -/

/-- A parsed JSON value. -/
inductive Json
  | null
  | bool (b : Bool)
  | num (n : Int)
  | str (s : String)
  | arr (xs : List Json)
  | obj (fields : List (String × Json))

/-- Exceptions the listener body can throw: JSON.parse's SyntaxError on
unparseable text, and TypeError from property access on null/undefined
or iteration of a non-iterable. -/
inductive JsErr
  | parseErr
  | typeErr
  deriving DecidableEq, Repr

/-- First binding for a key in a JS object literal's field list. -/
def jsLookup : List (String × Json) → String → Option Json
  | [], _ => none
  | (k, v) :: rest, key => if k = key then some v else jsLookup rest key

/-- Property access `x[key]`: throws TypeError on null, yields the
field (or undefined) on an object, and undefined on every other
primitive. -/
def jsMember : Json → String → Except JsErr (Option Json)
  | Json.null, _ => Except.error JsErr.typeErr
  | Json.obj fields, key => Except.ok (jsLookup fields key)
  | _, _ => Except.ok none

mutual

/-- JS string coercion as applied by innerHTML/outerHTML assignment and
template interpolation (an array stringifies as its elements joined by
commas, with null elements becoming empty). -/
def jsString : Json → String
  | Json.null => "null"
  | Json.bool b => if b then "true" else "false"
  | Json.num n => toString n
  | Json.str s => s
  | Json.arr xs => String.intercalate "," (jsStringList xs)
  | Json.obj _ => "[object Object]"

def jsStringList : List Json → List String
  | [] => []
  | Json.null :: rest => "" :: jsStringList rest
  | x :: rest => jsString x :: jsStringList rest

end

/-- JS string coercion including undefined. -/
def jsStringU : Option Json → String
  | none => "undefined"
  | some j => jsString j

/-- Value of `x.length`: throws on null, the element count on an array,
the character count on a string, the `length` field (or undefined) on
an object, undefined on other primitives. -/
def jsLengthProp : Json → Except JsErr (Option Json)
  | Json.null => Except.error JsErr.typeErr
  | Json.arr xs => Except.ok (some (Json.num xs.length))
  | Json.str t => Except.ok (some (Json.num t.length))
  | Json.obj fields => Except.ok (jsLookup fields "length")
  | _ => Except.ok none

/-- `x.length` where x may be undefined (which throws). -/
def jsLengthPropU : Option Json → Except JsErr (Option Json)
  | none => Except.error JsErr.typeErr
  | some j => jsLengthProp j

/-- What `for (const i of x)` iterates: array elements, a string's
characters as one-character strings; anything else is not iterable and
throws TypeError. -/
def jsIter : Json → Except JsErr (List Json)
  | Json.arr xs => Except.ok xs
  | Json.str t => Except.ok (t.data.map fun c => Json.str (String.singleton c))
  | _ => Except.error JsErr.typeErr

/-- Decode one suggestion item as the rendering loop (lines 149-170)
reads it: `i["avatar_url"]` (for the image src) and `i["name"]` (for
the span text), both coerced to strings. -/
def decodeSuggestion (j : Json) : Except JsErr Suggestion := do
  let a ← jsMember j "avatar_url"
  let n ← jsMember j "name"
  Except.ok { name := jsStringU n, avatar_url := jsStringU a }

/-- apply_username_suggestions applied to the raw decoded payload value
`data["suggestions"]` (possibly undefined): the `suggestions.length
=== 0` guard returns silently, otherwise the payload is iterated and
rendered.  The source interleaves the item field reads with the DOM
mutations, so a TypeError thrown mid-loop leaves partial mutations
behind; the Except model performs the reads first and discards the
partial state — no theorem below depends on the state after a throw. -/
def apply_username_suggestions_raw (s : PageState) (payload : Option Json) :
    Except JsErr PageState := do
  let len ← jsLengthPropU payload
  match len with
  | some (Json.num 0) => Except.ok s
  | _ => do
    let items ←
      match payload with
      | some j => jsIter j
      | none => Except.error JsErr.typeErr
    let sugs ← items.mapM decodeSuggestion
    Except.ok (apply_username_suggestions s sugs)

/-- The socket message listener (lines 7-28).  `raw` is the result of
JSON.parse on the frame's text: `none` when parsing throws
(SyntaxError), `some data` otherwise.  The listener then reads
data["key"] and dispatches; unknown keys are logged and ignored.
`now` is the wall clock read by update_last_refreshed. -/
def handle_socket_message (s : PageState) (now : String) (raw : Option Json) :
    Except JsErr PageState :=
  match raw with
  | none => Except.error JsErr.parseErr
  | some data => do
    let k ← jsMember data "key"
    match k with
    | some (Json.str "UpdatePage") => do
      let mc ← jsMember data "main_contents"
      Except.ok (update_last_refreshed { s with mainContents := jsStringU mc } now)
    | some (Json.str "SetUsername") => do
      let nn ← jsMember data "new_name"
      Except.ok (set_username s (jsStringU nn))
    | some (Json.str "UsernameSuggestions") => do
      let sg ← jsMember data "suggestions"
      apply_username_suggestions_raw s sg
    | _ => Except.ok s

/-! ## Events and reachable states

Every entry point of the script, as one event type, with a step
function applying the corresponding handler.  Inbound messages appear
in their decoded form (the raw-JSON listener above refines to these on
well-formed frames). -/

/-- One discrete event the page can process. -/
inductive Evt
  | keydown (key : String) (shiftKey : Bool)
  | inputClick
  | inputEdit (newValue : String)
  | optionClick (i : Nat)
  | outsideClick
  | resetClick
  | globalKeydown (key : String)
  | msgSuggestions (l : List Suggestion)
  | msgSetUsername (name : String)
  | msgUpdatePage (contents : String) (now : String)

/-- Apply one event's handler.  A pointer click on a rendered option
(only possible while the popup is shown) fires that option's click
listener, i.e. select_username on its captured name. -/
def step (s : PageState) (e : Evt) : PageState :=
  match e with
  | Evt.keydown k sh => input_keydown s k sh
  | Evt.inputClick => input_click s
  | Evt.inputEdit v => input_edit s v
  | Evt.optionClick i =>
    if s.popupOpen then
      match s.popupChildren.get? i with
      | some elem => select_username s elem.name
      | none => s
    else s
  | Evt.outsideClick => document_click_outside s
  | Evt.resetClick => reset_click s
  | Evt.globalKeydown k => document_keydown s k
  | Evt.msgSuggestions l => apply_username_suggestions s l
  | Evt.msgSetUsername n => set_username s n
  | Evt.msgUpdatePage c now => update_last_refreshed { s with mainContents := c } now

/-- States reachable from page load by any event sequence. -/
inductive Reachable : PageState → Prop
  | init (v : String) : Reachable (initState v)
  | step {s : PageState} (e : Evt) : Reachable s → Reachable (step s e)

/-- The highlight is null or a valid index into the option list. -/
def highlightValid (s : PageState) : Prop :=
  ∀ i, s.current_option = some i → 0 ≤ i ∧ i < (s.available_options.length : Int)

/-- The combobox invariant: a valid (or null) highlight, and an empty
option list only in the never-opened configuration (popup closed, no
highlight). -/
def comboInv (s : PageState) : Prop :=
  highlightValid s ∧
    (s.available_options = [] → s.popupOpen = false ∧ s.current_option = none)

/-! ## Preservation of the combobox invariant -/

theorem markSelected_length (l : List OptionElem) (i : Nat) :
    (markSelected l i).length = l.length := by
  induction l generalizing i with
  | nil => rfl
  | cons o rest ih =>
    cases i with
    | zero => rfl
    | succ n => simp [markSelected, ih]

theorem markSelectedIfValid_length (l : List OptionElem) (c : Int) :
    (markSelectedIfValid l c).length = l.length := by
  unfold markSelectedIfValid
  split <;> simp [markSelected_length]

theorem wrapIndex_bounds {c n : Int} (_hn : 0 < n) (h1 : -n ≤ c) (h2 : c < 2 * n) :
    0 ≤ wrapIndex c n ∧ wrapIndex c n < n := by
  unfold wrapIndex
  split_ifs <;> omega

/-- comboInv transfers between states that agree on the three fields it
inspects. -/
theorem comboInv_congr {s t : PageState} (h : comboInv s)
    (hc : t.current_option = s.current_option)
    (ha : t.available_options = s.available_options)
    (hp : t.popupOpen = s.popupOpen) : comboInv t := by
  obtain ⟨h1, h2⟩ := h
  refine ⟨fun i hi => ?_, fun he => ?_⟩
  · rw [hc] at hi
    rw [ha]
    exact h1 i hi
  · rw [ha] at he
    rw [hp, hc]
    exact h2 he

/-- comboInv for any state whose popup is closed, provided the highlight
fields carry over from an invariant state. -/
theorem comboInv_closed {s t : PageState} (h : comboInv s)
    (hc : t.current_option = s.current_option)
    (ha : t.available_options = s.available_options)
    (hp : t.popupOpen = false) : comboInv t := by
  obtain ⟨h1, h2⟩ := h
  refine ⟨fun i hi => ?_, fun he => ?_⟩
  · rw [hc] at hi
    rw [ha]
    exact h1 i hi
  · rw [ha] at he
    exact ⟨hp, by rw [hc]; exact (h2 he).2⟩

theorem close_popup_fields (s : PageState) (r : Bool) :
    (close_popup s r).current_option = s.current_option ∧
    (close_popup s r).available_options = s.available_options ∧
    (close_popup s r).popupOpen = false ∧
    (close_popup s r).old_username = none ∧
    (close_popup s r).popupChildren = [] ∧
    (close_popup s r).sent = s.sent := by
  unfold close_popup
  cases r
  · simp
  · cases s.old_username <;> simp

theorem comboInv_close_popup {s : PageState} (r : Bool) (h : comboInv s) :
    comboInv (close_popup s r) := by
  obtain ⟨f1, f2, f3, -⟩ := close_popup_fields s r
  exact comboInv_closed h f1 f2 f3

theorem comboInv_select_username {s : PageState} (name : String) (h : comboInv s) :
    comboInv (select_username s name) := by
  unfold select_username
  split
  · exact h
  · obtain ⟨f1, f2, f3, -⟩ :=
      close_popup_fields
        { s with mainContents := "", refreshText := "getting PR data for user " ++ name } false
    exact comboInv_closed h (by simpa using f1) (by simpa using f2) (by simpa using f3)

theorem comboInv_set_username {s : PageState} (name : String) (h : comboInv s) :
    comboInv (set_username s name) := by
  unfold set_username
  obtain ⟨f1, f2, f3, -⟩ := close_popup_fields s false
  exact comboInv_closed h (by simpa using f1) (by simpa using f2) (by simpa using f3)

theorem comboInv_reset_click {s : PageState} (h : comboInv s) :
    comboInv (reset_click s) := by
  unfold reset_click
  obtain ⟨f1, f2, f3, -⟩ := close_popup_fields s false
  exact comboInv_closed h (by simpa using f1) (by simpa using f2) (by simpa using f3)

theorem comboInv_apply_username_suggestions {s : PageState} (l : List Suggestion)
    (h : comboInv s) : comboInv (apply_username_suggestions s l) := by
  unfold apply_username_suggestions
  split
  · exact h
  next hne =>
    refine ⟨fun i hi => ?_, fun he => ?_⟩
    · simp at hi
    · simp at he
      exact absurd (by simp [he]) hne

theorem comboInv_changeSelection {s : PageState} {f : Option Int → Int}
    (hf : s.available_options.length ≠ 0 → ∀ c, s.current_option = c →
      -(s.available_options.length : Int) ≤ f c ∧
        f c < 2 * (s.available_options.length : Int))
    (h : comboInv s) : comboInv (changeSelection s f) := by
  unfold changeSelection
  split
  · exact h
  next hne =>
    have hn : 0 < (s.available_options.length : Int) := by
      exact_mod_cast Nat.pos_of_ne_zero hne
    obtain ⟨hb1, hb2⟩ :=
      wrapIndex_bounds hn (hf hne s.current_option rfl).1 (hf hne s.current_option rfl).2
    refine ⟨fun i hi => ?_, fun he => ?_⟩
    · have hi' : i = wrapIndex (f s.current_option) (s.available_options.length : Int) := by
        have := hi
        simp only at this
        exact (Option.some.injEq _ _ ▸ this).symm
      subst hi'
      refine ⟨hb1, ?_⟩
      simp only [markSelectedIfValid_length, List.length_map]
      exact hb2
    · simp only at he
      have hlen : (markSelectedIfValid
          (s.available_options.map fun o => { o with ariaSelected := false })
          (wrapIndex (f s.current_option) (s.available_options.length : Int))).length = 0 := by
        rw [he]
        rfl
      rw [markSelectedIfValid_length, List.length_map] at hlen
      exact absurd hlen hne

theorem comboInv_selectNext {s : PageState} (h : comboInv s) :
    comboInv (selectNext s) := by
  refine comboInv_changeSelection (fun hne c hc => ?_) h
  have hn : 0 < (s.available_options.length : Int) := by
    exact_mod_cast Nat.pos_of_ne_zero hne
  have hv := h.1
  cases c with
  | none =>
    constructor <;> simp <;> omega
  | some i =>
    obtain ⟨hi1, hi2⟩ := hv i hc
    constructor <;> simp <;> omega

theorem comboInv_selectPrev {s : PageState} (h : comboInv s) :
    comboInv (selectPrev s) := by
  refine comboInv_changeSelection (fun hne c hc => ?_) h
  have hn : 0 < (s.available_options.length : Int) := by
    exact_mod_cast Nat.pos_of_ne_zero hne
  have hv := h.1
  cases c with
  | none =>
    constructor <;> simp <;> omega
  | some i =>
    obtain ⟨hi1, hi2⟩ := hv i hc
    constructor <;> simp <;> omega

theorem comboInv_capture_old_username {s : PageState} (h : comboInv s) :
    comboInv (capture_old_username s) := by
  unfold capture_old_username
  cases s.old_username <;> [exact comboInv_congr h rfl rfl rfl; exact h]

theorem comboInv_blur_input {s : PageState} (h : comboInv s) :
    comboInv (blur_input s) :=
  comboInv_congr h rfl rfl rfl

theorem comboInv_confirmSelect {s : PageState} (ep : Bool) (h : comboInv s) :
    comboInv (confirmSelect s ep) := by
  have hb := comboInv_blur_input h
  unfold confirmSelect
  split
  · exact comboInv_select_username _ hb
  · split
    · exact comboInv_close_popup false hb
    · split
      · exact comboInv_select_username _ hb
      · exact hb

theorem comboInv_input_keydown {s : PageState} (k : String) (sh : Bool)
    (h : comboInv s) : comboInv (input_keydown s k sh) := by
  have hc := comboInv_capture_old_username h
  unfold input_keydown
  split
  · exact comboInv_selectNext hc
  · exact comboInv_selectPrev hc
  · split
    · exact comboInv_selectPrev hc
    · exact comboInv_selectNext hc
  · exact comboInv_confirmSelect true hc
  · exact comboInv_close_popup true hc
  · exact hc

theorem comboInv_ask_suggestions {s : PageState} (h : comboInv s) :
    comboInv (ask_suggestions s) :=
  comboInv_congr h rfl rfl rfl

theorem comboInv_initState (v : String) : comboInv (initState v) := by
  refine ⟨fun i hi => ?_, fun _ => ⟨rfl, rfl⟩⟩
  simp [initState] at hi

/-- In every state reachable from page load, the highlighted index is
null or a valid index into the option list, and the option list is
empty only with the popup closed and no highlight. -/
theorem comboInv_reachable {s : PageState} (h : Reachable s) : comboInv s := by
  induction h with
  | init v => exact comboInv_initState v
  | step e hr ih =>
    cases e with
    | keydown k sh => exact comboInv_input_keydown k sh ih
    | inputClick => exact comboInv_ask_suggestions (comboInv_capture_old_username ih)
    | inputEdit v => exact comboInv_ask_suggestions (comboInv_congr ih rfl rfl rfl)
    | optionClick i =>
      simp only [step]
      split
      · split
        · exact comboInv_select_username _ ih
        · exact ih
      · exact ih
    | outsideClick => exact comboInv_close_popup true ih
    | resetClick => exact comboInv_reset_click ih
    | globalKeydown k =>
      simp only [step]
      unfold document_keydown
      split
      · split
        · exact comboInv_congr ih rfl rfl rfl
        · exact ih
      · exact ih
    | msgSuggestions l => exact comboInv_apply_username_suggestions l ih
    | msgSetUsername n => exact comboInv_set_username n ih
    | msgUpdatePage c now => exact comboInv_congr ih rfl rfl rfl

/-! ## Navigation arithmetic -/

theorem changeSelection_current {s : PageState} {f : Option Int → Int}
    (hne : s.available_options.length ≠ 0) :
    (changeSelection s f).current_option =
      some (wrapIndex (f s.current_option) (s.available_options.length : Int)) := by
  unfold changeSelection
  rw [if_neg hne]

theorem wrapIndex_eq_emod {c n : Int} (hn : 0 < n) (h1 : -n ≤ c) (h2 : c < 2 * n) :
    wrapIndex c n = c % n := by
  unfold wrapIndex
  split_ifs with hge hlt
  · have h3 := Int.add_mul_emod_self_left (a := c - n) (b := n) (c := 1)
    have h4 : c % n = (c - n) % n := by
      rw [← h3]
      congr 1
      ring
    rw [h4, Int.emod_eq_of_lt (by omega) (by omega)]
  · have h3 := Int.add_mul_emod_self_left (a := c) (b := n) (c := 1)
    rw [← h3, show c + n * 1 = c + n by ring, Int.emod_eq_of_lt (by omega) (by omega)]
  · rw [Int.emod_eq_of_lt (by omega) (by omega)]

/-! ## Definitional forms of the closing and commit actions -/

theorem close_popup_false_eq (s : PageState) :
    close_popup s false =
      { s with old_username := none, popupOpen := false, popupChildren := [] } :=
  rfl

theorem close_popup_true_some {s : PageState} {old : String}
    (h : s.old_username = some old) :
    close_popup s true =
      { s with
        inputValue := old
        old_username := none
        popupOpen := false
        popupChildren := [] } := by
  unfold close_popup
  rw [h]
  rfl

/-- select_username on an actual change (the submitted name differs
from the snapshot): clears the main region, shows the fetching
placeholder, closes the popup without restore and appends exactly one
UsernameSelect message. -/
theorem select_username_commit {s : PageState} {name : String}
    (h : ¬ some name = s.old_username) :
    select_username s name =
      { s with
        mainContents := ""
        refreshText := "getting PR data for user " ++ name
        old_username := none
        popupOpen := false
        popupChildren := []
        sent := s.sent ++ [OutMsg.usernameSelect name] } := by
  unfold select_username
  rw [if_neg h]
  rfl

/-! ## Claim theorems -/

/-- Claim C7 (confirmed).  A commit whose name strictly equals the
`old_username` snapshot — the script's record of the currently active
identity during an edit session — returns before any effect: no
UsernameSelect message is sent, and the dashboard's main content region
and the refresh/placeholder text are untouched (select_username,
queue.js lines 47-50). -/
theorem c7_commit_same_identity_noop (s : PageState) (name : String)
    (h : s.old_username = some name) :
    (select_username s name).sent = s.sent ∧
    (select_username s name).mainContents = s.mainContents ∧
    (select_username s name).refreshText = s.refreshText := by
  unfold select_username
  rw [h, if_pos rfl]
  exact ⟨rfl, rfl, rfl⟩

/-- Witness for C7 at a concrete state. -/
theorem c7_witness :
    ({ initState "main-page" with old_username := some "octocat" } : PageState).old_username =
      some "octocat" ∧
    (select_username { initState "main-page" with old_username := some "octocat" } "octocat").sent
      = [] := by
  refine ⟨rfl, ?_⟩
  exact (c7_commit_same_identity_noop
    { initState "main-page" with old_username := some "octocat" } "octocat" rfl).1

/-- Claim C8 (confirmed).  In every state reachable from the initial
page state by any sequence of events (navigation keys, suggestion
replies, commits, cancels, reset, identity-changed, and the other
listeners), the highlighted index is null or a valid index into the
option list, and whenever the option list is empty the popup is closed
and the highlight is null. -/
theorem c8_invariant (s : PageState) (h : Reachable s) : comboInv s :=
  comboInv_reachable h

/-- Witness for C8: a concrete reachable state (one suggestions reply
after page load) satisfying the invariant. -/
theorem c8_witness :
    Reachable (step (initState "") (Evt.msgSuggestions [⟨"alice", "a.png"⟩])) ∧
    comboInv (step (initState "") (Evt.msgSuggestions [⟨"alice", "a.png"⟩])) := by
  have hr : Reachable (step (initState "") (Evt.msgSuggestions [⟨"alice", "a.png"⟩])) :=
    Reachable.step _ (Reachable.init "")
  exact ⟨hr, c8_invariant _ hr⟩

/-- Claim C9 (confirmed).  With an empty option list both navigation
operations are complete no-ops; with n options, NavigateNext from a
valid index i goes to (i+1) mod n and NavigatePrev to (i-1+n) mod n,
both within [0, n-1]; from the null highlight NavigateNext goes to 0
and NavigatePrev to n-1. -/
theorem c9_navigation (s : PageState) (n : Int)
    (hn : n = (s.available_options.length : Int)) :
    (n = 0 → selectNext s = s ∧ selectPrev s = s) ∧
    (n ≠ 0 → s.current_option = none →
      (selectNext s).current_option = some 0 ∧
      (selectPrev s).current_option = some (n - 1)) ∧
    (∀ i, n ≠ 0 → s.current_option = some i → 0 ≤ i → i < n →
      (selectNext s).current_option = some ((i + 1) % n) ∧
      (selectPrev s).current_option = some ((i - 1 + n) % n) ∧
      0 ≤ (i + 1) % n ∧ (i + 1) % n < n ∧
      0 ≤ (i - 1 + n) % n ∧ (i - 1 + n) % n < n) := by
  refine ⟨fun h0 => ?_, fun hne hcur => ?_, fun i hne hcur h0i hilt => ?_⟩
  · have hl : s.available_options.length = 0 := by
      rw [hn] at h0
      exact_mod_cast h0
    constructor
    · unfold selectNext changeSelection
      rw [if_pos hl]
    · unfold selectPrev changeSelection
      rw [if_pos hl]
  · have hl : s.available_options.length ≠ 0 := fun hc => hne (by rw [hn, hc]; rfl)
    have hnpos : 0 < n := by
      rw [hn]
      exact_mod_cast Nat.pos_of_ne_zero hl
    constructor
    · rw [selectNext, changeSelection_current hl, hcur]
      have : wrapIndex 0 (s.available_options.length : Int) = 0 := by
        unfold wrapIndex
        split_ifs <;> omega
      rw [this]
    · rw [selectPrev, changeSelection_current hl, hcur]
      have : wrapIndex ((s.available_options.length : Int) - 1)
          (s.available_options.length : Int) = (s.available_options.length : Int) - 1 := by
        unfold wrapIndex
        split_ifs <;> omega
      rw [this, hn]
  · have hl : s.available_options.length ≠ 0 := fun hc => hne (by rw [hn, hc]; rfl)
    have hnpos : 0 < n := by
      rw [hn]
      exact_mod_cast Nat.pos_of_ne_zero hl
    have hmod1 : 0 ≤ (i + 1) % n ∧ (i + 1) % n < n :=
      ⟨Int.emod_nonneg _ (by omega), Int.emod_lt_of_pos _ hnpos⟩
    have hmod2 : 0 ≤ (i - 1 + n) % n ∧ (i - 1 + n) % n < n :=
      ⟨Int.emod_nonneg _ (by omega), Int.emod_lt_of_pos _ hnpos⟩
    refine ⟨?_, ?_, hmod1.1, hmod1.2, hmod2.1, hmod2.2⟩
    · rw [selectNext, changeSelection_current hl, hcur]
      have hw : wrapIndex (i + 1) (s.available_options.length : Int) = (i + 1) % n := by
        rw [← hn]
        exact wrapIndex_eq_emod hnpos (by omega) (by omega)
      rw [hw]
    · rw [selectPrev, changeSelection_current hl, hcur]
      have hw : wrapIndex (i - 1) (s.available_options.length : Int) = (i - 1 + n) % n := by
        rw [← hn, wrapIndex_eq_emod hnpos (by omega) (by omega)]
        have h3 := Int.add_mul_emod_self_left (a := i - 1) (b := n) (c := 1)
        rw [← h3]
        congr 1
        ring
      rw [hw]

/-- Witness for C9 at a three-option state: Next from index 1 reaches
2, Prev from the null highlight reaches 2, and the empty state is
inert. -/
theorem c9_witness :
    (selectNext
      { initState "" with
        available_options :=
          [mkOptionElem ⟨"alice", "a.png"⟩, mkOptionElem ⟨"bob", "b.png"⟩,
            mkOptionElem ⟨"carol", "c.png"⟩]
        current_option := some 1 }).current_option = some ((1 + 1) % 3) ∧
    selectNext (initState "") = initState "" := by
  constructor
  · exact ((c9_navigation
      { initState "" with
        available_options :=
          [mkOptionElem ⟨"alice", "a.png"⟩, mkOptionElem ⟨"bob", "b.png"⟩,
            mkOptionElem ⟨"carol", "c.png"⟩]
        current_option := some 1 } 3 (by decide)).2.2 1 (by decide) rfl (by decide)
      (by decide)).1
  · exact ((c9_navigation (initState "") 0 (by decide)).1 rfl).1

/-- Claim C10 fails as stated: a later-arriving empty reply does not
win — it is a no-op, so processing a non-empty reply A and then the
empty reply B leaves A's options, while B alone leaves none. -/
theorem c10_counterexample :
    (apply_username_suggestions
        (apply_username_suggestions (initState "") [⟨"alice", "a.png"⟩]) []).available_options ≠
      (apply_username_suggestions (initState "") []).available_options := by
  decide

/-- Claim C10 amended (corrected): for every later-arriving NON-EMPTY
reply B, the later reply wins: processing A then B leaves exactly the
state of processing B alone — options replaced wholesale, highlight
reset to null, nothing depending on A.  (An empty later reply is a
no-op and leaves the earlier reply's options in place.) -/
theorem c10_amended (s : PageState) (a b : List Suggestion) (hb : b ≠ []) :
    apply_username_suggestions (apply_username_suggestions s a) b =
      apply_username_suggestions s b ∧
    (apply_username_suggestions s b).available_options = b.map mkOptionElem ∧
    (apply_username_suggestions s b).current_option = none := by
  have hbl : b.length ≠ 0 := fun hc => hb (List.length_eq_zero.mp hc)
  by_cases ha : a.length = 0
  · refine ⟨?_, ?_, ?_⟩ <;> simp [apply_username_suggestions, ha, hbl]
  · refine ⟨?_, ?_, ?_⟩ <;> simp [apply_username_suggestions, ha, hbl]

/-- Witness for C10 at concrete replies. -/
theorem c10_witness :
    ([⟨"bob", "b.png"⟩] : List Suggestion) ≠ [] ∧
    apply_username_suggestions
        (apply_username_suggestions (initState "") [⟨"alice", "a.png"⟩]) [⟨"bob", "b.png"⟩] =
      apply_username_suggestions (initState "") [⟨"bob", "b.png"⟩] :=
  ⟨by decide,
    (c10_amended (initState "") [⟨"alice", "a.png"⟩] [⟨"bob", "b.png"⟩] (by decide)).1⟩

/-- Claim C1 fails as stated: in the fresh page state with input
"octocat" and no popup, pressing Enter sends nothing at all.  The
keydown listener first captures old_username := "octocat" (the snapshot
was null), and select_username then finds name === old_username and
returns without sending. -/
theorem c1_counterexample :
    (initState "octocat").popupOpen = false ∧
    (initState "octocat").inputValue = "octocat" ∧
    (input_keydown (initState "octocat") "Enter" false).sent.count
      (OutMsg.usernameSelect "octocat") = 0 := by
  decide

/-- Claim C1 amended (corrected): in every state with input "octocat"
and no popup open IN WHICH THE EDIT-SESSION SNAPSHOT IS PRESENT WITH A
VALUE OTHER THAN "octocat", pressing Enter sends exactly one
UsernameSelect message with selected_name "octocat". -/
theorem c1_amended (s : PageState) (u : String) (sh : Bool)
    (hold : s.old_username = some u) (hneq : u ≠ "octocat")
    (hval : s.inputValue = "octocat") (hpopup : s.popupOpen = false) :
    (input_keydown s "Enter" sh).sent = s.sent ++ [OutMsg.usernameSelect "octocat"] := by
  have hcap : capture_old_username s = s := by
    unfold capture_old_username
    rw [hold]
  have hkey : input_keydown s "Enter" sh = confirmSelect s true := by
    show confirmSelect (capture_old_username s) true = confirmSelect s true
    rw [hcap]
  have hne : ¬ some (blur_input s).inputValue = (blur_input s).old_username := by
    intro hsome
    have hs : some s.inputValue = s.old_username := hsome
    rw [hval, hold] at hs
    exact hneq (Option.some.inj hs).symm
  have hconf : confirmSelect s true = select_username (blur_input s) (blur_input s).inputValue :=
    rfl
  rw [hkey, hconf, select_username_commit hne]
  show (blur_input s).sent ++ [OutMsg.usernameSelect (blur_input s).inputValue] = _
  have hbv : (blur_input s).inputValue = s.inputValue := rfl
  rw [hbv, hval]
  rfl

/-- Witness for C1's amended claim: snapshot "alice", input "octocat",
Enter sends the one UsernameSelect message. -/
theorem c1_witness :
    (input_keydown { initState "octocat" with old_username := some "alice" } "Enter" false).sent
      = [OutMsg.usernameSelect "octocat"] := by
  have h := c1_amended { initState "octocat" with old_username := some "alice" } "alice" false
    rfl (by decide) rfl rfl
  simpa using h

/-- Claim C2: the message listener runs JSON.parse(event.data) with no
try/catch (its body sits in a bare block), so an unparseable frame
throws a SyntaxError outward, and the frame "null" throws a TypeError
at data["key"]; only frames with an unrecognized key are logged and
discarded with the state unchanged. -/
theorem c2_malformed_frame_throws :
    handle_socket_message (initState "octocat") "12:00:00" none =
      Except.error JsErr.parseErr ∧
    handle_socket_message (initState "octocat") "12:00:00" (some Json.null) =
      Except.error JsErr.typeErr ∧
    handle_socket_message (initState "octocat") "12:00:00"
        (some (Json.obj [("key", Json.str "Frobnicate")])) =
      Except.ok (initState "octocat") :=
  ⟨rfl, rfl, rfl⟩

/-- Claim C3: the keydown listener matches the legacy key string "Esc"
only, so in a standard browser (event.key = "Escape") the Escape key
does nothing during an edit session — no restore, popup stays open,
snapshot kept (and no message is sent, trivially).  A key reported as
"Esc" does perform the claimed cancel-with-restore. -/
theorem c3_escape_key_ignored :
    input_keydown
        { initState "octocat" with
          old_username := some "alice"
          inputValue := "bob"
          available_options := [mkOptionElem ⟨"bob", "b.png"⟩]
          popupChildren := [mkOptionElem ⟨"bob", "b.png"⟩]
          popupOpen := true } "Escape" false =
      { initState "octocat" with
        old_username := some "alice"
        inputValue := "bob"
        available_options := [mkOptionElem ⟨"bob", "b.png"⟩]
        popupChildren := [mkOptionElem ⟨"bob", "b.png"⟩]
        popupOpen := true } ∧
    (input_keydown
        { initState "octocat" with
          old_username := some "alice"
          inputValue := "bob"
          available_options := [mkOptionElem ⟨"bob", "b.png"⟩]
          popupChildren := [mkOptionElem ⟨"bob", "b.png"⟩]
          popupOpen := true } "Esc" false).inputValue = "alice" ∧
    (input_keydown
        { initState "octocat" with
          old_username := some "alice"
          inputValue := "bob"
          available_options := [mkOptionElem ⟨"bob", "b.png"⟩]
          popupChildren := [mkOptionElem ⟨"bob", "b.png"⟩]
          popupOpen := true } "Esc" false).popupOpen = false ∧
    (input_keydown
        { initState "octocat" with
          old_username := some "alice"
          inputValue := "bob"
          available_options := [mkOptionElem ⟨"bob", "b.png"⟩]
          popupChildren := [mkOptionElem ⟨"bob", "b.png"⟩]
          popupOpen := true } "Esc" false).sent = [] := by
  decide

/-- Claim C4 fails as stated: after an actual change commit the
internal option list is NOT cleared — close_popup empties only the
popup's rendered children, while available_options (and
current_option) keep their stale contents. -/
theorem c4_counterexample :
    ¬ some ({ initState "octocat" with
        old_username := some "alice"
        available_options := [mkOptionElem ⟨"alice", "a.png"⟩, mkOptionElem ⟨"bob", "b.png"⟩]
        popupChildren := [mkOptionElem ⟨"alice", "a.png"⟩, mkOptionElem ⟨"bob", "b.png"⟩]
        popupOpen := true
        current_option := some 0 } : PageState).inputValue =
      ({ initState "octocat" with
        old_username := some "alice"
        available_options := [mkOptionElem ⟨"alice", "a.png"⟩, mkOptionElem ⟨"bob", "b.png"⟩]
        popupChildren := [mkOptionElem ⟨"alice", "a.png"⟩, mkOptionElem ⟨"bob", "b.png"⟩]
        popupOpen := true
        current_option := some 0 } : PageState).old_username ∧
    (confirmSelect
      { initState "octocat" with
        old_username := some "alice"
        available_options := [mkOptionElem ⟨"alice", "a.png"⟩, mkOptionElem ⟨"bob", "b.png"⟩]
        popupChildren := [mkOptionElem ⟨"alice", "a.png"⟩, mkOptionElem ⟨"bob", "b.png"⟩]
        popupOpen := true
        current_option := some 0 } true).available_options ≠ [] := by
  decide

/-- Claim C4 amended (corrected): immediately after an actual change
commit (ConfirmForced, or ConfirmSoft on a highlighted option whose
name differs from the snapshot), the popup is closed and its RENDERED
option list cleared, the snapshot is null, the input focus is blurred,
and exactly one UsernameSelect message has been sent — but the internal
option array and the highlighted index are left as they were, not
cleared. -/
theorem c4_amended (s : PageState) :
    (¬ some s.inputValue = s.old_username →
      (confirmSelect s true).popupOpen = false ∧
      (confirmSelect s true).popupChildren = [] ∧
      (confirmSelect s true).old_username = none ∧
      (confirmSelect s true).focused ≠ Focus.usernameInput ∧
      (confirmSelect s true).sent = s.sent ++ [OutMsg.usernameSelect s.inputValue] ∧
      (confirmSelect s true).available_options = s.available_options ∧
      (confirmSelect s true).current_option = s.current_option) ∧
    (∀ i elem, s.current_option = some i → jsIndex s.available_options i = some elem →
      ¬ some elem.name = s.old_username →
      (confirmSelect s false).popupOpen = false ∧
      (confirmSelect s false).popupChildren = [] ∧
      (confirmSelect s false).old_username = none ∧
      (confirmSelect s false).focused ≠ Focus.usernameInput ∧
      (confirmSelect s false).sent = s.sent ++ [OutMsg.usernameSelect elem.name] ∧
      (confirmSelect s false).available_options = s.available_options ∧
      (confirmSelect s false).current_option = s.current_option) := by
  have hblur : (if s.focused = Focus.usernameInput then Focus.other else s.focused) ≠
      Focus.usernameInput := by
    split_ifs with hf
    · simp
    · exact hf
  constructor
  · intro hne
    have hne1 : ¬ some (blur_input s).inputValue = (blur_input s).old_username := hne
    have hconf : confirmSelect s true =
        select_username (blur_input s) (blur_input s).inputValue := rfl
    rw [hconf, select_username_commit hne1]
    exact ⟨rfl, rfl, rfl, hblur, rfl, rfl, rfl⟩
  · intro i elem hcur hidx hne
    have hcur1 : (blur_input s).current_option = some i := hcur
    have hidx1 : jsIndex (blur_input s).available_options i = some elem := hidx
    have hne1 : ¬ some elem.name = (blur_input s).old_username := hne
    have hconf : confirmSelect s false = select_username (blur_input s) elem.name := by
      show (match (blur_input s).current_option with
        | none => close_popup (blur_input s) false
        | some i =>
          match jsIndex (blur_input s).available_options i with
          | some elem => select_username (blur_input s) elem.name
          | none => blur_input s) = select_username (blur_input s) elem.name
      rw [hcur1]
      show (match jsIndex (blur_input s).available_options i with
        | some elem => select_username (blur_input s) elem.name
        | none => blur_input s) = select_username (blur_input s) elem.name
      rw [hidx1]
    rw [hconf, select_username_commit hne1]
    exact ⟨rfl, rfl, rfl, hblur, rfl, rfl, rfl⟩

/-- Witness for C4's amended claim at a concrete two-path state:
the forced commit sends the input text, the soft commit sends the
highlighted option's name. -/
theorem c4_witness :
    (confirmSelect
      { initState "octocat" with
        old_username := some "zzz"
        available_options := [mkOptionElem ⟨"alice", "a.png"⟩]
        popupChildren := [mkOptionElem ⟨"alice", "a.png"⟩]
        popupOpen := true
        current_option := some 0 } true).sent = [OutMsg.usernameSelect "octocat"] ∧
    (confirmSelect
      { initState "octocat" with
        old_username := some "zzz"
        available_options := [mkOptionElem ⟨"alice", "a.png"⟩]
        popupChildren := [mkOptionElem ⟨"alice", "a.png"⟩]
        popupOpen := true
        current_option := some 0 } false).sent = [OutMsg.usernameSelect "alice"] := by
  constructor
  · have h := (c4_amended
      { initState "octocat" with
        old_username := some "zzz"
        available_options := [mkOptionElem ⟨"alice", "a.png"⟩]
        popupChildren := [mkOptionElem ⟨"alice", "a.png"⟩]
        popupOpen := true
        current_option := some 0 }).1 (by decide)
    simpa using h.2.2.2.2.1
  · have h := (c4_amended
      { initState "octocat" with
        old_username := some "zzz"
        available_options := [mkOptionElem ⟨"alice", "a.png"⟩]
        popupChildren := [mkOptionElem ⟨"alice", "a.png"⟩]
        popupOpen := true
        current_option := some 0 }).2 0 (mkOptionElem ⟨"alice", "a.png"⟩)
      rfl (by decide) (by decide)
    simpa using h.2.2.2.2.1

/-- Claim C5 fails as stated: ConfirmSoft with a null highlight calls
close_popup(false), which does NOT restore the snapshot — the input
keeps its edited text "bob" instead of reverting to "alice", unlike
Cancel (Escape/click-outside), which calls close_popup(true). -/
theorem c5_counterexample :
    ({ initState "octocat" with
        old_username := some "alice"
        inputValue := "bob"
        popupOpen := true } : PageState).old_username = some "alice" ∧
    ({ initState "octocat" with
        old_username := some "alice"
        inputValue := "bob"
        popupOpen := true } : PageState).current_option = none ∧
    (confirmSelect
      { initState "octocat" with
        old_username := some "alice"
        inputValue := "bob"
        popupOpen := true } false).inputValue ≠ "alice" := by
  decide

/-- Claim C5 amended (corrected): ConfirmSoft with a null highlight
closes the popup, clears the snapshot and sends no outbound message,
but leaves the input's displayed text unchanged — the snapshot is NOT
restored (close-without-restore, not Cancel). -/
theorem c5_amended (s : PageState) (h : s.current_option = none) :
    (confirmSelect s false).popupOpen = false ∧
    (confirmSelect s false).popupChildren = [] ∧
    (confirmSelect s false).old_username = none ∧
    (confirmSelect s false).sent = s.sent ∧
    (confirmSelect s false).inputValue = s.inputValue := by
  have hcur : (blur_input s).current_option = none := h
  have hconf : confirmSelect s false = close_popup (blur_input s) false := by
    show (match (blur_input s).current_option with
      | none => close_popup (blur_input s) false
      | some i =>
        match jsIndex (blur_input s).available_options i with
        | some elem => select_username (blur_input s) elem.name
        | none => blur_input s) = close_popup (blur_input s) false
    rw [hcur]
  rw [hconf, close_popup_false_eq]
  exact ⟨rfl, rfl, rfl, rfl, rfl⟩

/-- Witness for C5's amended claim at a concrete edited state. -/
theorem c5_witness :
    (confirmSelect
      { initState "octocat" with
        old_username := some "alice"
        inputValue := "bob"
        popupOpen := true } false).inputValue = "bob" ∧
    (confirmSelect
      { initState "octocat" with
        old_username := some "alice"
        inputValue := "bob"
        popupOpen := true } false).sent = [] := by
  have h := c5_amended
    { initState "octocat" with
      old_username := some "alice"
      inputValue := "bob"
      popupOpen := true } rfl
  exact ⟨h.2.2.2.2, h.2.2.2.1⟩

/-- Claim C6 fails as stated: the global "/" handler checks only
whether the combobox input is the active element; a "/" typed while a
DIFFERENT editable field has focus still steals focus to the combobox
input, where the claim says the handler does nothing. -/
theorem c6_counterexample :
    ({ initState "octocat" with focused := Focus.otherEditable } : PageState).focused =
      Focus.otherEditable ∧
    (document_keydown { initState "octocat" with focused := Focus.otherEditable } "/").focused =
      Focus.usernameInput ∧
    (document_keydown { initState "octocat" with focused := Focus.otherEditable } "/"
      ).inputSelected = true := by
  decide

/-- Claim C6 amended (corrected): the global "/" key focuses the
combobox input and selects its text whenever the input does not already
have focus — including when the event originated inside another
editable field; only the combobox input itself having focus suppresses
the handler. -/
theorem c6_amended (s : PageState) :
    (s.focused ≠ Focus.usernameInput →
      document_keydown s "/" =
        { s with focused := Focus.usernameInput, inputSelected := true }) ∧
    (s.focused = Focus.usernameInput → document_keydown s "/" = s) := by
  constructor
  · intro h
    unfold document_keydown
    rw [if_pos h]
    rfl
  · intro h
    unfold document_keydown
    rw [if_neg (by simp [h])]
    rfl

/-- Witness for C6's amended claim at a concrete unfocused state. -/
theorem c6_witness :
    document_keydown (initState "octocat") "/" =
      { initState "octocat" with focused := Focus.usernameInput, inputSelected := true } :=
  (c6_amended (initState "octocat")).1 (by decide)

end ReviewQueue
